/-
Verification of the build-identity reconciliation engine of
vite-plugin-build-id (src/index.ts) against its specification.

The plugin state and the decision procedure (`bump`, `nextBuildId`,
`sameStatusHash`, `getStatusHash`, `saveStatusHash`, the init-time status
hydration and the lifecycle hooks) are shallowly embedded below.  JavaScript
numbers occurring in the record are modelled as `Option Int`, with `none`
standing for `NaN`; JavaScript string truthiness and `Number.parseInt`
semantics are modelled explicitly.
-/
import Mathlib

namespace VitePluginBuildId

/-- A JavaScript number restricted to the integral values the plugin
manipulates; `none` stands for `NaN`. -/
abbrev JSNum := Option Int

/-- Adding one to a JavaScript number; `NaN + 1 = NaN`. -/
def jsSucc (n : JSNum) : JSNum := n.map (· + 1)

/-- Truthiness of a JavaScript `string | undefined` value: `undefined` and the
empty string are falsy, every other string is truthy. -/
def jsTruthyStr : Option String → Bool
  | none => false
  | some s => s != ""

/-- The resolved plugin options (interface `Options` in src/index.ts).
`buildIdEnv` has no default and stays `none` when the user did not set it. -/
structure Options where
  prepare : Bool
  destination : String
  enableCommitHash : Bool
  disableBumpSameStatus : Bool
  buildIdEnv : Option String
deriving DecidableEq

/-- The user-supplied partial options object, before defaulting. -/
structure PartialOptions where
  prepare : Option Bool := none
  destination : Option String := none
  enableCommitHash : Option Bool := none
  disableBumpSameStatus : Option Bool := none
  buildIdEnv : Option String := none
deriving DecidableEq

/-- The defaulting merge `optionsWithDefaults` of src/index.ts: each of the
four defaulted keys is filled with `??` from
`{prepare: false, destination: "src", enableCommitHash: false,
disableBumpSameStatus: true}`; `buildIdEnv` is not defaulted. -/
def optionsWithDefaults (p : PartialOptions) : Options where
  prepare := p.prepare.getD false
  destination := p.destination.getD "src"
  enableCommitHash := p.enableCommitHash.getD false
  disableBumpSameStatus := p.disableBumpSameStatus.getD true
  buildIdEnv := p.buildIdEnv

/-- The fully-defaulted options, as produced by `vitePluginBuildId({})`. -/
def defaultOptions : Options := optionsWithDefaults {}

/-- The persisted record (interface `AppVersion` in src/index.ts). -/
structure AppVersion where
  version : String
  build_id : JSNum
  total_build : JSNum
  commit_hash : Option String
deriving DecidableEq

/-- The field initializer of `VitePluginBuildId.appVersion`: the zero-value
record `{version: "", build_id: 0, total_build: 0}`. -/
def initialAppVersion : AppVersion :=
  { version := "", build_id := some 0, total_build := some 0, commit_hash := none }

/-- The transient fingerprint pair (interface `StatusHash` in src/index.ts);
both fields start `undefined`. -/
structure StatusHash where
  previous : Option String := none
  current : Option String := none
deriving DecidableEq

/-- The mutable fields of a `VitePluginBuildId` instance that the decision
procedure reads and writes.  `gitPath` is `none` when no source-control root
was located, `commitHash` is `none` when no revision was resolved. -/
structure PluginState where
  options : Options
  gitPath : Option String
  statusHash : StatusHash
  appVersion : AppVersion
  packageVer : String
  commitHash : Option String
deriving DecidableEq

/-- One row of the source-control status matrix: a path with its HEAD,
working-tree and stage state flags (`row[0] .. row[3]` in src/index.ts). -/
structure StatusRow where
  path : String
  head : Nat
  workdir : Nat
  stage : Nat
deriving DecidableEq

/-- The shape of a parseable persisted `version.json`
(fields read by `resolveCurrentVersion`). -/
structure VersionFile where
  version : String
  build_id : JSNum
  total_build : JSNum
deriving DecidableEq

/-- Hydration (`resolveCurrentVersion` in src/index.ts): a readable, parseable
prior `version.json` overwrites `version`, `build_id` and `total_build` of the
zero-value record; a missing or corrupt file is caught, only warned about, and
leaves the zero-value record in place.  `commit_hash` is never hydrated. -/
def resolveCurrentVersion (prior : Option VersionFile) : AppVersion :=
  match prior with
  | some r =>
    { initialAppVersion with
        version := r.version, build_id := r.build_id, total_build := r.total_build }
  | none => initialAppVersion

/-- Value of a decimal digit character, `none` for a non-digit. -/
def decDigitVal (c : Char) : Option Nat :=
  if c.isDigit then some (c.toNat - 48) else none

/-- Value of a hexadecimal digit character, `none` for a non-digit. -/
def hexDigitVal (c : Char) : Option Nat :=
  if c.isDigit then some (c.toNat - 48)
  else if 'a' ≤ c && c ≤ 'f' then some (c.toNat - 87)
  else if 'A' ≤ c && c ≤ 'F' then some (c.toNat - 55)
  else none

/-- Accumulates the longest digit run at the front of the character list;
`none` when no digit at all was consumed (the `NaN` case). -/
def parseIntDigits (base : Nat) (digitVal : Char → Option Nat) :
    List Char → Option Nat → Option Nat
  | [], acc => acc
  | c :: cs, acc =>
    match digitVal c with
    | some d => parseIntDigits base digitVal cs (some (acc.getD 0 * base + d))
    | none => acc

/-- The semantics of `Number.parseInt(s)` with no radix argument, as used in
`bump`: strip leading whitespace, read an optional sign, detect a `0x`/`0X`
prefix (hexadecimal) and otherwise parse the longest leading decimal digit
run, ignoring trailing garbage; `none` models the `NaN` result. -/
def jsParseInt (s : String) : Option Int :=
  let cs := s.data.dropWhile fun c => c = ' ' || c = '\t' || c = '\n' || c = '\r'
  let signAndRest : Bool × List Char :=
    match cs with
    | '-' :: rest => (true, rest)
    | '+' :: rest => (false, rest)
    | _ => (false, cs)
  let neg := signAndRest.1
  let parsed : Option Nat :=
    match signAndRest.2 with
    | '0' :: 'x' :: rest => parseIntDigits 16 hexDigitVal rest none
    | '0' :: 'X' :: rest => parseIntDigits 16 hexDigitVal rest none
    | rest => parseIntDigits 10 decDigitVal rest none
  parsed.map fun n => if neg then -(n : Int) else (n : Int)

/-- Rendering of one `(path, mtime)` pair for the digest. -/
def renderPair (p : String × Int) : String :=
  p.1 ++ ":" ++ toString p.2

/-- Modelled from the spec: the repository delegates the fingerprint digest to
the external `node-object-hash` hasher (`hasher().hash(status)` in
`getStatusHash`), whose code is not part of this repository.  The spec
requires an order-independent digest of the collection of `(path, mtime)`
pairs ("Order-independently hash the resulting collection", "canonicalize
order before or during hashing").  We model it as the digest of the
canonically sorted rendering of the pairs. -/
def hashPairs (l : List (String × Int)) : String :=
  String.intercalate ";" (Multiset.sort (· ≤ ·) (l.map renderPair : Multiset String))

/-- The status-matrix filter of `getStatusHash`: keep rows whose working-tree
state differs from HEAD, which are not absent from working tree or stage, and
which are neither the canonical `version.json` path nor the `.status_hash`
side-channel path (both taken relative to the source-control root). -/
def statusFilter (rootVerRel statusHashRel : String) (row : StatusRow) : Bool :=
  row.head != row.workdir && row.workdir != 0 && row.stage != 0
    && row.path != rootVerRel && row.path != statusHashRel

/-- The fingerprint computation `getStatusHash` of src/index.ts: filter the
status matrix, pair each surviving path with its filesystem mtime, and return
`undefined` for an empty surviving set, otherwise the digest of the
collection. -/
def getStatusHash (rootVerRel statusHashRel : String) (rows : List StatusRow)
    (mtime : String → Int) : Option String :=
  let status := (rows.filter (statusFilter rootVerRel statusHashRel)).map
    fun row => (row.path, mtime row.path)
  if status.length = 0 then none else some (hashPairs status)

/-- The status-hash hydration performed by `init`: only when
`disableBumpSameStatus` is on and a source-control root was found are
`previous` (the side-channel file contents, `undefined` when the file is
absent) and `current` (the computed fingerprint) filled in; otherwise both
fields keep their `undefined` initializers. -/
def initStatusHash (opts : Options) (gitPath : Option String)
    (prevHashFile : Option String) (rootVerRel statusHashRel : String)
    (rows : List StatusRow) (mtime : String → Int) : StatusHash :=
  if opts.disableBumpSameStatus && jsTruthyStr gitPath then
    { previous := prevHashFile
      current := getStatusHash rootVerRel statusHashRel rows mtime }
  else
    { previous := none, current := none }

/-- The `init` clause `if (process.env.CI) this.options.prepare = true`:
a truthy `CI` environment value forces the `prepare` option on, mutating the
shared options object. -/
def initPrepare (opts : Options) (ciEnv : Option String) : Options :=
  if jsTruthyStr ciEnv then { opts with prepare := true } else opts

/-- The filesystem action taken by `saveStatusHash` of src/index.ts. -/
inductive SaveAction where
  /-- Unlink the `.status_hash` file, swallowing a missing-file error, and log
  `NO MODIFIED FILE`. -/
  | removeFile : SaveAction
  /-- Overwrite the `.status_hash` file with the fingerprint. -/
  | writeFile (h : String) : SaveAction
  /-- Log `Status Hash Not Work`: no source-control root. -/
  | notWork : SaveAction
  /-- Do nothing: `disableBumpSameStatus` is off. -/
  | nothing : SaveAction
deriving DecidableEq

/-- The publishing step `saveStatusHash`: with skip-if-unchanged on and a
source-control root present, an `undefined` current fingerprint removes the
side-channel file while a present fingerprint is written to it; without a
root only a notice is logged. -/
def saveStatusHash (opts : Options) (gitPath : Option String)
    (current : Option String) : SaveAction :=
  if opts.disableBumpSameStatus then
    if jsTruthyStr gitPath then
      match current with
      | none => SaveAction.removeFile
      | some h => SaveAction.writeFile h
    else SaveAction.notWork
  else SaveAction.nothing

/-- The comparison `sameStatusHash`:
`this.statusHash.current === this.statusHash.previous`. -/
def sameStatusHash (st : PluginState) : Bool :=
  st.statusHash.current == st.statusHash.previous

/-- The successor computation `nextBuildId`: reset to 1 when the hydrated
version differs from the package version, else the hydrated id plus one. -/
def nextBuildId (st : PluginState) : JSNum :=
  if st.appVersion.version != st.packageVer then some 1
  else jsSucc st.appVersion.build_id

/-- The environment read at the top of `bump`:
`this.options.buildIdEnv ? process.env[this.options.buildIdEnv] : undefined`. -/
def envValue (opts : Options) (procEnv : String → Option String) : Option String :=
  if jsTruthyStr opts.buildIdEnv then procEnv (opts.buildIdEnv.getD "") else none

/-- The early-return guard of `bump`:
`this.options.disableBumpSameStatus && env === undefined && this.sameStatusHash()`. -/
def skipBump (st : PluginState) (env : Option String) : Bool :=
  st.options.disableBumpSameStatus && env == none && sameStatusHash st

/-- The outcome of one `bump` call: the instance state afterwards, and whether
the call took the skip early-return (logging `Same file status, skip bump.`). -/
structure BumpResult where
  state : PluginState
  skipped : Bool
deriving DecidableEq

/-- The decision core `bump` of src/index.ts: read the override environment
variable; skip without any mutation when skip-if-unchanged is on, no override
is present and the fingerprints compare equal; otherwise set `build_id` to the
parsed override when the override string is truthy and to `nextBuildId()`
otherwise, stamp `version` with the package version, increment `total_build`
by one, and (via `buildVersion`) attach the commit hash when commit tracking
is enabled. -/
def bump (st : PluginState) (procEnv : String → Option String) : BumpResult :=
  let env := envValue st.options procEnv
  if skipBump st env then
    { state := st, skipped := true }
  else
    let newBuildId : JSNum :=
      if jsTruthyStr env then jsParseInt (env.getD "") else nextBuildId st
    let av :=
      { st.appVersion with
          build_id := newBuildId
          version := st.packageVer
          total_build := jsSucc st.appVersion.total_build }
    let av :=
      if st.options.enableCommitHash then { av with commit_hash := st.commitHash }
      else av
    { state := { st with appVersion := av }, skipped := false }

/-- The command mode the build pipeline reports at configuration time. -/
inductive Command where
  | build : Command
  | serve : Command
deriving DecidableEq

/-- Whether the `configResolved` hook of `vitePluginBuildId` bumps and writes
the canonical `version.json`: `init` runs first (possibly forcing `prepare`
from the `CI` environment variable, on the shared options object), then the
bump happens exactly when the effective `prepare` is on and the command is
`build`. -/
def bumpAtConfigResolved (userOpts : PartialOptions) (ciEnv : Option String)
    (command : Command) : Bool :=
  let pluginOptions := optionsWithDefaults userOpts
  (initPrepare pluginOptions ciEnv).prepare && command == Command.build

/-- Whether the `writeBundle` hook of `vitePluginBuildId` bumps and writes the
canonical `version.json`: exactly when the effective `prepare` (after the
`init`-time `CI` mutation of the shared options object) is off. -/
def bumpAtWriteBundle (userOpts : PartialOptions) (ciEnv : Option String) : Bool :=
  let pluginOptions := optionsWithDefaults userOpts
  !(initPrepare pluginOptions ciEnv).prepare

/-- The per-build inputs of one bump in a sequence of builds: the resolved
options, the located source-control root, the hydrated fingerprint pair, the
package version, the resolved commit hash, and the process environment. -/
structure BuildInput where
  options : Options
  gitPath : Option String
  statusHash : StatusHash
  packageVer : String
  commitHash : Option String
  procEnv : String → Option String

/-- The instance state of a build, given the persisted record carried over
from the previous build. -/
def stateFor (av : AppVersion) (i : BuildInput) : PluginState :=
  { options := i.options, gitPath := i.gitPath, statusHash := i.statusHash
    appVersion := av, packageVer := i.packageVer, commitHash := i.commitHash }

/-- The record produced by one build: hydrate the carried-over record into a
fresh instance and run `bump`. -/
def buildStep (av : AppVersion) (i : BuildInput) : AppVersion :=
  (bump (stateFor av i) i.procEnv).state.appVersion

/-- The record after a sequence of builds starting from the first-run
zero-value record. -/
def runBuilds (inputs : List BuildInput) : AppVersion :=
  inputs.foldl buildStep initialAppVersion

/-- Helper: a present override environment string defeats the
`env === undefined` conjunct of the skip guard. -/
theorem skipBump_some (st : PluginState) (s : String) :
    skipBump st (some s) = false := by
  simp [skipBump]

/-- Helper: the configured and present override variable is what `bump`
reads from the process environment. -/
theorem envValue_eq_of_config (opts : Options) (pe : String → Option String)
    (name : String) (hname : opts.buildIdEnv = some name) (hn : name ≠ "") :
    envValue opts pe = pe name := by
  simp [envValue, hname, jsTruthyStr, hn]

/-- C4: when an override value is supplied via the configured environment
variable (a set, non-empty string), it unconditionally wins: the skip check is
bypassed, `build_id` becomes the parsed override value verbatim,
`total_build` is incremented by exactly one, and `version` is stamped with the
current package version, for every state whatsoever (any fingerprint match,
any version equality). -/
theorem c4_override_wins (st : PluginState) (pe : String → Option String)
    (name s : String) (hname : st.options.buildIdEnv = some name) (hn : name ≠ "")
    (hs : pe name = some s) (hne : s ≠ "") :
    (bump st pe).skipped = false ∧
    (bump st pe).state.appVersion.build_id = jsParseInt s ∧
    (bump st pe).state.appVersion.version = st.packageVer ∧
    (bump st pe).state.appVersion.total_build = jsSucc st.appVersion.total_build := by
  have henv : envValue st.options pe = some s := by
    rw [envValue_eq_of_config st.options pe name hname hn, hs]
  cases hEC : st.options.enableCommitHash <;>
    simp [bump, henv, skipBump_some, jsTruthyStr, hne, hEC]

/-- C4 witness: a concrete CI override `"42"` lands verbatim in `build_id`
even though the fingerprints match and the version is unchanged. -/
theorem c4_witness :
    (bump
      { options := { defaultOptions with buildIdEnv := some "CI_BUILD" }
        gitPath := some "/repo"
        statusHash := { previous := some "h", current := some "h" }
        appVersion :=
          { version := "1.0.0", build_id := some 5, total_build := some 12
            commit_hash := none }
        packageVer := "1.0.0", commitHash := none }
      (fun n => if n = "CI_BUILD" then some "42" else none)).skipped = false ∧
    (bump
      { options := { defaultOptions with buildIdEnv := some "CI_BUILD" }
        gitPath := some "/repo"
        statusHash := { previous := some "h", current := some "h" }
        appVersion :=
          { version := "1.0.0", build_id := some 5, total_build := some 12
            commit_hash := none }
        packageVer := "1.0.0", commitHash := none }
      (fun n => if n = "CI_BUILD" then some "42" else none)).state.appVersion.build_id
        = jsParseInt "42" ∧
    (bump
      { options := { defaultOptions with buildIdEnv := some "CI_BUILD" }
        gitPath := some "/repo"
        statusHash := { previous := some "h", current := some "h" }
        appVersion :=
          { version := "1.0.0", build_id := some 5, total_build := some 12
            commit_hash := none }
        packageVer := "1.0.0", commitHash := none }
      (fun n => if n = "CI_BUILD" then some "42" else none)).state.appVersion.version
        = "1.0.0" ∧
    (bump
      { options := { defaultOptions with buildIdEnv := some "CI_BUILD" }
        gitPath := some "/repo"
        statusHash := { previous := some "h", current := some "h" }
        appVersion :=
          { version := "1.0.0", build_id := some 5, total_build := some 12
            commit_hash := none }
        packageVer := "1.0.0", commitHash := none }
      (fun n => if n = "CI_BUILD" then some "42" else none)).state.appVersion.total_build
        = jsSucc (some 12) :=
  c4_override_wins _ _ "CI_BUILD" "42" rfl (by decide) rfl (by decide)

/-- C5: with skip-if-unchanged enabled, no override supplied, and the previous
and current fingerprints both available and equal, `bump` performs no mutation
at all: the whole instance state, the in-memory record included, is returned
exactly as hydrated and the call reports skipped. -/
theorem c5_skip_no_mutation (st : PluginState) (pe : String → Option String)
    (h : String)
    (hd : st.options.disableBumpSameStatus = true)
    (henv : envValue st.options pe = none)
    (hp : st.statusHash.previous = some h)
    (hc : st.statusHash.current = some h) :
    bump st pe = { state := st, skipped := true } := by
  have hsame : sameStatusHash st = true := by
    simp [sameStatusHash, hp, hc]
  simp [bump, henv, skipBump, hd, hsame]

/-- C5 witness: a concrete hydrated state with matching fingerprints is left
untouched by `bump`. -/
theorem c5_witness :
    bump
      { options := defaultOptions, gitPath := some "/repo"
        statusHash := { previous := some "h1", current := some "h1" }
        appVersion :=
          { version := "1.0.0", build_id := some 3, total_build := some 8
            commit_hash := none }
        packageVer := "1.0.0", commitHash := none }
      (fun _ => none)
      = { state :=
            { options := defaultOptions, gitPath := some "/repo"
              statusHash := { previous := some "h1", current := some "h1" }
              appVersion :=
                { version := "1.0.0", build_id := some 3, total_build := some 8
                  commit_hash := none }
              packageVer := "1.0.0", commitHash := none }
          skipped := true } :=
  c5_skip_no_mutation _ _ "h1" rfl rfl rfl rfl

/-- C6: every bump that takes the mutating branch, with or without override
and with or without a `build_id` reset, advances `total_build` by exactly one
and reports not skipped. -/
theorem c6_total_build_increment (st : PluginState) (pe : String → Option String)
    (t : Int)
    (hskip : skipBump st (envValue st.options pe) = false)
    (ht : st.appVersion.total_build = some t) :
    (bump st pe).state.appVersion.total_build = some (t + 1) ∧
    (bump st pe).skipped = false := by
  cases hEC : st.options.enableCommitHash <;>
    simp [bump, hskip, jsSucc, ht, hEC]

/-- C6 witness: a mutating bump (fingerprints differ) takes `total_build`
from 8 to exactly 9. -/
theorem c6_witness :
    (bump
      { options := defaultOptions, gitPath := some "/repo"
        statusHash := { previous := some "h1", current := some "h2" }
        appVersion :=
          { version := "1.0.0", build_id := some 3, total_build := some 8
            commit_hash := none }
        packageVer := "1.0.0", commitHash := none }
      (fun _ => none)).state.appVersion.total_build = some (8 + 1) ∧
    (bump
      { options := defaultOptions, gitPath := some "/repo"
        statusHash := { previous := some "h1", current := some "h2" }
        appVersion :=
          { version := "1.0.0", build_id := some 3, total_build := some 8
            commit_hash := none }
        packageVer := "1.0.0", commitHash := none }
      (fun _ => none)).skipped = false :=
  c6_total_build_increment _ _ 8 (by decide) rfl

/-- Concrete state for the C1 counterexample: version bumped from `1.0.0` to
`2.0.0` in `package.json`, skip-if-unchanged on, fingerprints equal, no
override configured. -/
def c1state : PluginState :=
  { options := defaultOptions, gitPath := some "/repo"
    statusHash := { previous := some "h", current := some "h" }
    appVersion :=
      { version := "1.0.0", build_id := some 5, total_build := some 12
        commit_hash := none }
    packageVer := "2.0.0", commitHash := none }

/-- C1 counterexample: the current version differs from the recorded one, yet
with equal fingerprints and skip-if-unchanged enabled `bump` skips, leaving
`build_id` at 5 instead of resetting it to 1 — the sameness-skip takes
priority over the version change, contradicting the claim. -/
theorem c1_counterexample :
    c1state.packageVer ≠ c1state.appVersion.version ∧
    (bump c1state (fun _ => none)).state.appVersion.build_id = some 5 ∧
    (bump c1state (fun _ => none)).state.appVersion.build_id ≠ some 1 :=
  ⟨by decide, rfl, by decide⟩

/-- C1 amended: whenever the bump is not swallowed by the sameness-skip (the
skip guard evaluates false) and no override value is read, a version change
resets `build_id` to 1. -/
theorem c1_version_reset_when_not_skipped (st : PluginState)
    (pe : String → Option String)
    (henv : envValue st.options pe = none)
    (hskip : skipBump st none = false)
    (hver : st.appVersion.version ≠ st.packageVer) :
    (bump st pe).state.appVersion.build_id = some 1 := by
  cases hEC : st.options.enableCommitHash <;>
    simp [bump, henv, hskip, jsTruthyStr, nextBuildId, hver, hEC]

/-- C1 amended witness: with differing fingerprints the version change from
`1.0.0` to `2.0.0` does reset `build_id` to 1. -/
theorem c1_witness :
    (bump
      { options := defaultOptions, gitPath := some "/repo"
        statusHash := { previous := some "a", current := some "b" }
        appVersion :=
          { version := "1.0.0", build_id := some 5, total_build := some 12
            commit_hash := none }
        packageVer := "2.0.0", commitHash := none }
      (fun _ => none)).state.appVersion.build_id = some 1 :=
  c1_version_reset_when_not_skipped _ _ rfl (by decide) (by decide)

/-- Concrete state for C2: skip-if-unchanged on (the default), no override
variable configured, and no source-control root located, so `init` leaves both
fingerprint fields `undefined`. -/
def c2state : PluginState :=
  { options := defaultOptions, gitPath := none
    statusHash :=
      initStatusHash defaultOptions none none "src/version.json" ".status_hash"
        [] (fun _ => 0)
    appVersion :=
      { version := "1.0.0", build_id := some 3, total_build := some 8
        commit_hash := none }
    packageVer := "1.0.0", commitHash := none }

/-- C2: evaluation of the code at the failing input.  With change detection
unavailable (no source-control root), `init` leaves both fingerprints
`undefined`, `undefined === undefined` makes `sameStatusHash()` true, and
`bump` takes the skip early-return: the record is never mutated, the exact
opposite of the degrade-to-always-bump behavior the claim (and the option
documentation) describe. -/
theorem c2_no_git_always_skips :
    c2state.statusHash = { previous := none, current := none } ∧
    bump c2state (fun _ => none) = { state := c2state, skipped := true } :=
  ⟨rfl, rfl⟩

/-- First-run instance state for C7: no prior `version.json` (hydration keeps
the zero-value record), package version `1.0.0`, default options, a located
source-control root and the given fingerprint pair. -/
def firstRunState (sh : StatusHash) : PluginState :=
  { options := defaultOptions, gitPath := some "/repo", statusHash := sh
    appVersion := resolveCurrentVersion none
    packageVer := "1.0.0", commitHash := none }

/-- C7 counterexample: on a first run in a clean workspace the previous
fingerprint is `undefined` (no side-channel file) and the current fingerprint
is `undefined` (empty surviving set), so the single bump is skipped and the
record stays `{version:"", build_id:0, total_build:0}` instead of becoming
`{version:"1.0.0", build_id:1, total_build:1}`. -/
theorem c7_counterexample :
    resolveCurrentVersion none = initialAppVersion ∧
    (bump (firstRunState { previous := none, current := none })
      (fun _ => none)).state.appVersion = resolveCurrentVersion none ∧
    (bump (firstRunState { previous := none, current := none })
      (fun _ => none)).state.appVersion ≠
      { version := "1.0.0", build_id := some 1, total_build := some 1
        commit_hash := none } :=
  ⟨rfl, rfl, by decide⟩

/-- C7 amended: hydration of a missing or corrupt `version.json` is non-fatal
and yields the zero-value record, and a first-run bump that is not swallowed
by the sameness-skip produces `{version:"1.0.0", build_id:1, total_build:1}`. -/
theorem c7_first_run (sh : StatusHash) (pe : String → Option String)
    (hskip : skipBump (firstRunState sh) none = false) :
    resolveCurrentVersion none = initialAppVersion ∧
    (bump (firstRunState sh) pe).state.appVersion =
      { version := "1.0.0", build_id := some 1, total_build := some 1
        commit_hash := none } := by
  have henv : envValue (firstRunState sh).options pe = none := rfl
  refine ⟨rfl, ?_⟩
  simp only [bump, henv, hskip, Bool.false_eq_true, if_false]
  rfl

/-- C7 amended witness: on a first run with a modified workspace (current
fingerprint present, previous absent) the bump yields
`{version:"1.0.0", build_id:1, total_build:1}`. -/
theorem c7_witness :
    resolveCurrentVersion none = initialAppVersion ∧
    (bump (firstRunState { previous := none, current := some "h" })
      (fun _ => none)).state.appVersion =
      { version := "1.0.0", build_id := some 1, total_build := some 1
        commit_hash := none } :=
  c7_first_run { previous := none, current := some "h" } (fun _ => none) (by decide)

/-- Helper: the digest of the `(path, mtime)` collection only depends on the
collection up to permutation, because it canonically sorts the rendered
pairs. -/
theorem hashPairs_of_perm {l1 l2 : List (String × Int)} (h : l1.Perm l2) :
    hashPairs l1 = hashPairs l2 := by
  unfold hashPairs
  rw [Multiset.coe_eq_coe.mpr (h.map renderPair)]

/-- C8: the workspace fingerprint is insensitive to the enumeration order of
the status matrix: permuting the input rows (hence the surviving
`(path, mtime)` set) never changes the resulting fingerprint. -/
theorem c8_fingerprint_order_independent (rootVerRel statusHashRel : String)
    (rows1 rows2 : List StatusRow) (mtime : String → Int)
    (hperm : rows1.Perm rows2) :
    getStatusHash rootVerRel statusHashRel rows1 mtime
      = getStatusHash rootVerRel statusHashRel rows2 mtime := by
  have hm :
      ((rows1.filter (statusFilter rootVerRel statusHashRel)).map
        (fun row => (row.path, mtime row.path))).Perm
      ((rows2.filter (statusFilter rootVerRel statusHashRel)).map
        (fun row => (row.path, mtime row.path))) :=
    (hperm.filter (statusFilter rootVerRel statusHashRel)).map
      (fun row => (row.path, mtime row.path))
  simp only [getStatusHash]
  rw [hm.length_eq, hashPairs_of_perm hm]

/-- Concrete status matrices for the C8 witness, one the reverse of the
other. -/
def c8rowsA : List StatusRow :=
  [{ path := "a.txt", head := 0, workdir := 1, stage := 1 },
   { path := "b.txt", head := 0, workdir := 2, stage := 2 }]

/-- Reversed ordering of `c8rowsA`. -/
def c8rowsB : List StatusRow :=
  [{ path := "b.txt", head := 0, workdir := 2, stage := 2 },
   { path := "a.txt", head := 0, workdir := 1, stage := 1 }]

/-- C8 witness: the two orderings of the same two dirty rows produce the same
fingerprint. -/
theorem c8_witness :
    c8rowsA.Perm c8rowsB ∧
    getStatusHash "src/version.json" ".status_hash" c8rowsA (fun _ => 7)
      = getStatusHash "src/version.json" ".status_hash" c8rowsB (fun _ => 7) :=
  ⟨by decide,
   c8_fingerprint_order_independent "src/version.json" ".status_hash"
     c8rowsA c8rowsB (fun _ => 7) (by decide)⟩

/-- C9 counterexample: with change detection enabled, the fingerprint computed
over a clean workspace (empty surviving set) and the fingerprint of a build
where change detection never ran (no source-control root) are the very same
`undefined` value — the absence value is not distinguishable from
"fingerprint not computed". -/
theorem c9_counterexample :
    (initStatusHash defaultOptions (some "/repo") none "src/version.json"
      ".status_hash" [] (fun _ => 0)).current = none ∧
    (initStatusHash defaultOptions none none "src/version.json"
      ".status_hash" [] (fun _ => 0)).current = none ∧
    (initStatusHash defaultOptions (some "/repo") none "src/version.json"
      ".status_hash" [] (fun _ => 0)).current
      = (initStatusHash defaultOptions none none "src/version.json"
      ".status_hash" [] (fun _ => 0)).current :=
  ⟨rfl, rfl, rfl⟩

/-- C9 amended: when the filtered set of modified paths is empty the
fingerprint is the absence value `undefined` — not a hash of the empty
collection — and publishing then removes the side-channel file instead of
writing an empty hash; this absence value however coincides with the
"fingerprint not computed" value, the two situations being told apart only by
the presence of the source-control root. -/
theorem c9_empty_absence (rootVerRel statusHashRel : String)
    (rows : List StatusRow) (mtime : String → Int) (gp : String)
    (hgp : gp ≠ "")
    (hempty : rows.filter (statusFilter rootVerRel statusHashRel) = []) :
    getStatusHash rootVerRel statusHashRel rows mtime = none ∧
    saveStatusHash defaultOptions (some gp)
      (getStatusHash rootVerRel statusHashRel rows mtime)
      = SaveAction.removeFile := by
  have h1 : getStatusHash rootVerRel statusHashRel rows mtime = none := by
    simp [getStatusHash, hempty]
  refine ⟨h1, ?_⟩
  rw [h1]
  simp [saveStatusHash, defaultOptions, optionsWithDefaults, jsTruthyStr, hgp]

/-- C9 witness: a matrix whose rows are all filtered out (the canonical
`version.json` path, and a path with identical HEAD and working-tree state)
yields the absent fingerprint, and publishing removes the side-channel
file. -/
theorem c9_witness :
    getStatusHash "src/version.json" ".status_hash"
      [{ path := "src/version.json", head := 1, workdir := 2, stage := 2 },
       { path := "clean.txt", head := 1, workdir := 1, stage := 1 }]
      (fun _ => 3) = none ∧
    saveStatusHash defaultOptions (some "/repo")
      (getStatusHash "src/version.json" ".status_hash"
        [{ path := "src/version.json", head := 1, workdir := 2, stage := 2 },
         { path := "clean.txt", head := 1, workdir := 1, stage := 1 }]
        (fun _ => 3)) = SaveAction.removeFile :=
  c9_empty_absence "src/version.json" ".status_hash" _ _ "/repo"
    (by decide) (by decide)

/-- C10 counterexample: the `CI` environment variable set to the empty string
is a set value, yet it is falsy, so `prepare` is not forced: in build mode the
bump still happens at `writeBundle` time, not at configuration-resolved
time. -/
theorem c10_counterexample :
    (initPrepare (optionsWithDefaults {}) (some "")).prepare = false ∧
    bumpAtConfigResolved {} (some "") Command.build = false ∧
    bumpAtWriteBundle {} (some "") = true :=
  ⟨rfl, rfl, rfl⟩

/-- C10 amended: whenever the `CI` environment variable is set to any
non-empty (truthy) value, initialization forces `prepare` to true, so in build
mode the bump and canonical write happen at configuration-resolved time and
not at bundle-write time, even when the user left `prepare` at its default. -/
theorem c10_ci_forces_prepare (userOpts : PartialOptions) (s : String)
    (hne : s ≠ "") :
    (initPrepare (optionsWithDefaults userOpts) (some s)).prepare = true ∧
    bumpAtConfigResolved userOpts (some s) Command.build = true ∧
    bumpAtWriteBundle userOpts (some s) = false := by
  simp [initPrepare, jsTruthyStr, hne, bumpAtConfigResolved, bumpAtWriteBundle]

/-- C10 witness: `CI=true` with an empty user options object forces the
configuration-resolved bump. -/
theorem c10_witness :
    (initPrepare (optionsWithDefaults {}) (some "true")).prepare = true ∧
    bumpAtConfigResolved {} (some "true") Command.build = true ∧
    bumpAtWriteBundle {} (some "true") = false :=
  c10_ci_forces_prepare {} "true" (by decide)

/-- Concrete first-run state for the C3 counterexample, with the override
variable configured. -/
def c3state : PluginState :=
  { options := { defaultOptions with buildIdEnv := some "DRONE_BUILD_NUMBER" }
    gitPath := some "/repo"
    statusHash := { previous := none, current := none }
    appVersion := initialAppVersion
    packageVer := "1.0.0", commitHash := none }

/-- Concrete process environment for the C3 counterexample: the CI build
number is 100. -/
def c3env : String → Option String :=
  fun n => if n = "DRONE_BUILD_NUMBER" then some "100" else none

/-- C3 counterexample: one override-driven bump from the zero-value record
sets `build_id` to 100 while `total_build` only advances to 1, so after that
bump `total_build ≥ build_id` fails. -/
theorem c3_counterexample :
    (bump c3state c3env).state.appVersion.build_id = some 100 ∧
    (bump c3state c3env).state.appVersion.total_build = some 1 ∧
    ¬ (100 : Int) ≤ 1 :=
  ⟨rfl, rfl, by decide⟩

/-- Helper for C3: one override-free build preserves the invariant that the
record carries genuine numbers with `0 ≤ build_id ≤ total_build`. -/
theorem bump_inv (st : PluginState) (pe : String → Option String)
    (henv : envValue st.options pe = none)
    (b t : Int) (hb : st.appVersion.build_id = some b)
    (ht : st.appVersion.total_build = some t) (hb0 : 0 ≤ b) (hbt : b ≤ t) :
    ∃ b2 t2 : Int, (bump st pe).state.appVersion.build_id = some b2 ∧
      (bump st pe).state.appVersion.total_build = some t2 ∧ 0 ≤ b2 ∧ b2 ≤ t2 := by
  by_cases hS : skipBump st none = true
  · exact ⟨b, t, by simp [bump, henv, hS, hb], by simp [bump, henv, hS, ht],
      hb0, hbt⟩
  · have hS2 : skipBump st none = false := by simpa using hS
    by_cases hv : st.appVersion.version != st.packageVer
    · refine ⟨1, t + 1, ?_, ?_, by omega, by omega⟩ <;>
        cases hEC : st.options.enableCommitHash <;>
        simp [bump, henv, hS2, jsTruthyStr, nextBuildId, hv, hEC, jsSucc, ht]
    · have hv2 : (st.appVersion.version != st.packageVer) = false := by
        simpa using hv
      refine ⟨b + 1, t + 1, ?_, ?_, by omega, by omega⟩ <;>
        cases hEC : st.options.enableCommitHash <;>
        simp [bump, henv, hS2, jsTruthyStr, nextBuildId, hv2, hEC, jsSucc,
          hb, ht]

/-- Helper for C3: one override-free build step preserves the record
invariant. -/
theorem buildStep_inv (av : AppVersion) (i : BuildInput)
    (henv : envValue i.options i.procEnv = none)
    (hinv : ∃ b t : Int, av.build_id = some b ∧ av.total_build = some t ∧
      0 ≤ b ∧ b ≤ t) :
    ∃ b t : Int, (buildStep av i).build_id = some b ∧
      (buildStep av i).total_build = some t ∧ 0 ≤ b ∧ b ≤ t := by
  obtain ⟨b, t, hb, ht, hb0, hbt⟩ := hinv
  exact bump_inv (stateFor av i) i.procEnv henv b t hb ht hb0 hbt

/-- C3 amended: for every state of the record reachable from the first-run
zero-value record by a sequence of override-free bump operations,
`total_build ≥ build_id` (and both are genuine numbers, with
`build_id ≥ 0`); the claim as stated fails for override-driven bumps. -/
theorem c3_total_ge_build_without_override (inputs : List BuildInput)
    (hno : ∀ i ∈ inputs, envValue i.options i.procEnv = none) :
    ∃ b t : Int, (runBuilds inputs).build_id = some b ∧
      (runBuilds inputs).total_build = some t ∧ 0 ≤ b ∧ b ≤ t := by
  have main : ∀ (l : List BuildInput) (av : AppVersion),
      (∀ i ∈ l, envValue i.options i.procEnv = none) →
      (∃ b t : Int, av.build_id = some b ∧ av.total_build = some t ∧
        0 ≤ b ∧ b ≤ t) →
      ∃ b t : Int, (l.foldl buildStep av).build_id = some b ∧
        (l.foldl buildStep av).total_build = some t ∧ 0 ≤ b ∧ b ≤ t := by
    intro l
    induction l with
    | nil => intro av _ h; simpa using h
    | cons i rest ih =>
      intro av hnil hinv
      simp only [List.foldl_cons]
      exact ih (buildStep av i)
        (fun j hj => hnil j (List.mem_cons_of_mem _ hj))
        (buildStep_inv av i (hnil i (List.mem_cons_self _ _)) hinv)
  exact main inputs initialAppVersion hno ⟨0, 0, rfl, rfl, le_refl 0, le_refl 0⟩

/-- Concrete three-build override-free history for the C3 witness: a dirty
first build, a skipped rebuild, then a version bump. -/
def c3winputs : List BuildInput :=
  [{ options := defaultOptions, gitPath := some "/repo"
     statusHash := { previous := none, current := some "h" }
     packageVer := "1.0.0", commitHash := none, procEnv := fun _ => none },
   { options := defaultOptions, gitPath := some "/repo"
     statusHash := { previous := some "h", current := some "h" }
     packageVer := "1.0.0", commitHash := none, procEnv := fun _ => none },
   { options := defaultOptions, gitPath := some "/repo"
     statusHash := { previous := some "h", current := some "g" }
     packageVer := "1.1.0", commitHash := none, procEnv := fun _ => none }]

/-- C3 amended witness: after the concrete override-free three-build history
the record satisfies `total_build ≥ build_id`. -/
theorem c3_witness :
    ∃ b t : Int, (runBuilds c3winputs).build_id = some b ∧
      (runBuilds c3winputs).total_build = some t ∧ 0 ≤ b ∧ b ≤ t :=
  c3_total_ge_build_without_override c3winputs (by decide)

end VitePluginBuildId
